import Mathlib

/-!
Verification of the fetch-and-aggregate core of dblp_crawler.py.

The Python source is shallowly embedded: JSON documents become an inductive
type, Python runtime exceptions become an error type threaded through
Except, the HTTP transport becomes an oracle function from attempt index to
response, and time.sleep calls are recorded in an event trace instead of
blocking.  The retry loop of get_dblp_results is written as structural
recursion on the remaining retry budget (fuel = max_retries + 1 - retries),
which is exactly the number of loop iterations the Python while-loop can
still perform.
-/

/-- Errors a Python expression in the embedded fragment can raise.
requestException stands for requests.exceptions.RequestException (which the
source catches), keyError for KeyError (also caught), and the remaining
constructors for ValueError, TypeError and AttributeError, none of which
the source catches inside get_dblp_results. -/
inductive PyError where
  | requestException
  | keyError (k : String)
  | valueError
  | typeError
  | attributeError
deriving DecidableEq

/-- JSON values, the shape of response.json() output. -/
inductive Json where
  | null
  | str (s : String)
  | num (n : Int)
  | arr (elems : List Json)
  | obj (fields : List (String × Json))

/-- Python d.get(key, default): returns the value bound to the key (or the
default) when d is a dict, and raises AttributeError otherwise. -/
def pyGet : Json → String → Json → Except PyError Json
  | .obj fs, k, dflt => .ok ((List.lookup k fs).getD dflt)
  | _, _, _ => .error .attributeError

/-- Python d[key]: KeyError when the key is missing from a dict, TypeError
when subscripting a non-dict with a string key. -/
def pyIndex : Json → String → Except PyError Json
  | .obj fs, k =>
    match List.lookup k fs with
    | some v => .ok v
    | none => .error (.keyError k)
  | _, _ => .error .typeError

/-- Whitespace accepted around a Python integer literal. -/
def isSpaceChar (c : Char) : Bool :=
  c == ' ' || c == '\t' || c == '\n' || c == '\r'

/-- Value of a decimal digit character. -/
def charDigit? (c : Char) : Option Nat :=
  if c.isDigit then some (c.toNat - 48) else none

/-- Accumulate a decimal number over a digit list; none on a non-digit. -/
def natOfDigits (acc : Nat) : List Char → Option Nat
  | [] => some acc
  | c :: cs =>
    match charDigit? c with
    | some d => natOfDigits (acc * 10 + d) cs
    | none => none

/-- Python int(string): surrounding whitespace is stripped, an optional
sign is allowed, and at least one digit is required. -/
def pyIntOfChars (l : List Char) : Option Int :=
  match ((l.dropWhile isSpaceChar).reverse.dropWhile isSpaceChar).reverse with
  | [] => none
  | '-' :: rest =>
    match rest with
    | [] => none
    | _ => (natOfDigits 0 rest).map (fun n => -(n : Int))
  | '+' :: rest =>
    match rest with
    | [] => none
    | _ => (natOfDigits 0 rest).map (fun n => (n : Int))
  | l2 => (natOfDigits 0 l2).map (fun n => (n : Int))

/-- Python int(x) on a JSON value: numbers pass through, strings are parsed
as integers (ValueError when that fails), anything else is a TypeError. -/
def pyInt : Json → Except PyError Int
  | .num n => .ok n
  | .str s =>
    match pyIntOfChars s.data with
    | some n => .ok n
    | none => .error .valueError
  | _ => .error .typeError

/-- Python equality between a JSON value and a string literal: only a JSON
string with the same contents compares equal. -/
def pyEqStr (j : Json) (s : String) : Bool :=
  match j with
  | .str t => t == s
  | _ => false

/-- Coercion used by str.join: non-strings raise TypeError. -/
def strOnly : Json → Except PyError String
  | .str s => .ok s
  | _ => .error .typeError

/-- Sequencing of a fallible map over a list, mirroring a Python loop or
comprehension that raises out of the first failing element. -/
def mapExcept {α : Type} (f : Json → Except PyError α) : List Json → Except PyError (List α)
  | [] => .ok []
  | x :: xs =>
    match f x with
    | .error e => .error e
    | .ok y =>
      match mapExcept f xs with
      | .error e => .error e
      | .ok ys => .ok (y :: ys)

/-- Lines 98-100 and the for-statement of line 102: a dict is wrapped into a
one-element list; iterating a list yields its elements, iterating a string
yields its one-character substrings, iterating anything else raises
TypeError. -/
def toHitList : Json → Except PyError (List Json)
  | .obj fs => .ok [.obj fs]
  | .arr xs => .ok xs
  | .str s => .ok (s.data.map (fun c => Json.str (String.singleton c)))
  | _ => .error .typeError

/-- Normalized record built at lines 112-118.  The Python dict stores raw
values of info.get(...), so the fields are JSON values, not strings. -/
structure Entry where
  title : Json
  authors : Json
  venue : Json
  year : Json
  url : Json

/-- Lines 105-106: ", ".join(author.get("text", "") for author in authors_info).
CPython's str.join first drains the generator (surfacing any AttributeError
from .get) and only then type-checks the items. -/
def joinTexts (xs : List Json) : Except PyError String :=
  match mapExcept (fun a => pyGet a "text" (.str "")) xs with
  | .error e => .error e
  | .ok texts =>
    match mapExcept strOnly texts with
    | .error e => .error e
    | .ok strs => .ok (String.intercalate ", " strs)

/-- Lines 104-110: the three-way shape dispatch on authors_info. -/
def normalizeAuthors : Json → Except PyError Json
  | .arr xs =>
    match joinTexts xs with
    | .error e => .error e
    | .ok s => .ok (.str s)
  | .obj fs => pyGet (.obj fs) "text" (.str "")
  | _ => .ok (.str "")

/-- Lines 102-119: turn one raw hit into an Entry.  Every .get call can
raise AttributeError when its receiver is not a dict. -/
def normalizeHit (hit : Json) : Except PyError Entry :=
  match pyGet hit "info" (.obj []) with
  | .error e => .error e
  | .ok info =>
    match pyGet info "authors" (.obj []) with
    | .error e => .error e
    | .ok authorsField =>
      match pyGet authorsField "author" (.arr []) with
      | .error e => .error e
      | .ok authorsInfo =>
        match normalizeAuthors authorsInfo with
        | .error e => .error e
        | .ok authors =>
          match pyGet info "title" (.str ""), pyGet info "venue" (.str ""),
                pyGet info "year" (.str ""), pyGet info "url" (.str "") with
          | .ok t, .ok v, .ok y, .ok u => .ok ⟨t, authors, v, y, u⟩
          | .error e, _, _, _ => .error e
          | _, .error e, _, _ => .error e
          | _, _, .error e, _ => .error e
          | _, _, _, .error e => .error e

/-- Line 90: data.get("result", {}).get("hits", {}).get("@total", "0"). -/
def totalHits (data : Json) : Except PyError Json :=
  match pyGet data "result" (.obj []) with
  | .error e => .error e
  | .ok r =>
    match pyGet r "hits" (.obj []) with
    | .error e => .error e
    | .ok h => pyGet h "@total" (.str "0")

/-- Lines 90-119: everything done with a decoded 2xx body.  Returns
.ok none for the zero-total early break (lines 91-93, no entries, no
pacing sleep) and .ok (some entries) for the success path.  Note line 95,
count = int(total_hits), which raises ValueError on a non-integer total,
and lines 96 onward, whose subscripts and iteration can raise TypeError
or AttributeError on oddly shaped values; only RequestException and
KeyError are caught by the enclosing try. -/
def processData (data : Json) : Except PyError (Option (List Entry)) :=
  match totalHits data with
  | .error e => .error e
  | .ok total =>
    if pyEqStr total "0" then .ok none
    else
      match pyInt total with
      | .error e => .error e
      | .ok _count =>
        match pyIndex data "result" with
        | .error e => .error e
        | .ok result =>
          match pyIndex result "hits" with
          | .error e => .error e
          | .ok hitsObj =>
            match pyGet hitsObj "hit" (.arr []) with
            | .error e => .error e
            | .ok hitField =>
              match toHitList hitField with
              | .error e => .error e
              | .ok hits =>
                match mapExcept normalizeHit hits with
                | .error e => .error e
                | .ok entries => .ok (some entries)

/-- Outcome of one session.get call: either a RequestException at
transport level, or an HTTP response with a status code, the raw string
value of the Retry-After header when present, and a body (none when the
body is not decodable JSON; requests raises a JSONDecodeError, a
RequestException subclass, from response.json() in that case). -/
inductive Resp where
  | transportError
  | httpResponse (status : Nat) (retryAfter : Option String) (body : Option Json)

/-- Line 80: int(response.headers.get("Retry-After", backoff)).  With the
header absent the default is the integer backoff itself, so int() is the
identity; with the header present int() parses the raw string and raises
an uncaught ValueError on a non-integer value. -/
def parse_retry_after (retryAfter : Option String) (backoff : Nat) : Except PyError Int :=
  match retryAfter with
  | none => .ok backoff
  | some s =>
    match pyIntOfChars s.data with
    | some n => .ok n
    | none => .error .valueError

/-- Result of one iteration of the try-block at lines 63-123. -/
inductive IterResult where
  | rateLimited (d : Nat)
  | breakEmpty
  | breakSuccess (entries : List Entry)
  | raised (e : PyError)

/-- Lines 77-123, the body of the try for one request attempt, given the
current backoff value.  On 429 the slept duration is the parsed
Retry-After header if present, else the current backoff (line 80); a
non-integer header raises ValueError out of int(), and a negative value
raises ValueError out of time.sleep (line 82), neither of which is
caught.  raise_for_status (line 87) turns any status of 400 and above
into a RequestException. -/
def tryBody (resp : Resp) (backoff : Nat) : IterResult :=
  match resp with
  | .transportError => .raised .requestException
  | .httpResponse status retryAfter body =>
    if status == 429 then
      match parse_retry_after retryAfter backoff with
      | .error e => .raised e
      | .ok n => if n < 0 then .raised .valueError else .rateLimited n.toNat
    else if 400 ≤ status then
      .raised .requestException
    else
      match body with
      | none => .raised .requestException
      | some data =>
        match processData data with
        | .ok none => .breakEmpty
        | .ok (some es) => .breakSuccess es
        | .error e => .raised e

/-- One recorded time.sleep call: either the delay before retrying the
same query (lines 82 and 131) or the fixed inter-query pacing delay after
a successful fetch (line 122). -/
inductive SleepEvent where
  | retryDelay (d : Nat)
  | pacing (d : Nat)
deriving DecidableEq

/-- Observable result of one get_dblp_results call: the returned list (or
the exception escaping the function), the trace of sleeps in order, and
the number of request attempts made. -/
structure FetchOut where
  outcome : Except PyError (List Entry)
  sleeps : List SleepEvent
  attempts : Nat

/-- Lines 62-136, the retry loop.  fuel is max_retries + 1 - retries, the
number of iterations the while-condition still allows, so the loop guard
retries <= max_retries becomes fuel > 0 and the abandon test
retries > max_retries inside the RequestException handler (line 127)
becomes fuel = 1.  The attempts counter equals the Python retries value at
the top of each iteration, hence indexes the response oracle. -/
def fetchLoop (responses : Nat → Resp) (sleepTime : Nat) :
    Nat → Nat → List Entry → List SleepEvent → Nat → FetchOut
  | 0, _, results, sleeps, attempts => ⟨.ok results, sleeps, attempts⟩
  | fuel + 1, backoff, results, sleeps, attempts =>
    match tryBody (responses attempts) backoff with
    | .rateLimited d =>
      fetchLoop responses sleepTime fuel (backoff * 2) results
        (sleeps ++ [.retryDelay d]) (attempts + 1)
    | .breakEmpty => ⟨.ok results, sleeps, attempts + 1⟩
    | .breakSuccess es =>
      ⟨.ok (results ++ es), sleeps ++ [.pacing sleepTime], attempts + 1⟩
    | .raised .requestException =>
      match fuel with
      | 0 => ⟨.ok results, sleeps, attempts + 1⟩
      | _ + 1 =>
        fetchLoop responses sleepTime fuel (backoff * 2) results
          (sleeps ++ [.retryDelay backoff]) (attempts + 1)
    | .raised (.keyError _) => ⟨.ok results, sleeps, attempts + 1⟩
    | .raised e => ⟨.error e, sleeps, attempts + 1⟩

/-- Python str.lower() restricted to ASCII letters, which covers the
venue and year tokens the program compares; written structurally so that
concrete query strings evaluate inside the kernel. -/
def pyLower (s : String) : String := String.mk (s.data.map Char.toLower)

/-- Line 66: the venue filter clause. -/
def venue_clause (venue : String) : String := "streamid:conf/" ++ pyLower venue ++ ":"

/-- Line 68: the year filter clause. -/
def year_clause (year : String) : String := "year:" ++ year ++ ":"

/-- Lines 64-68: keyword first, then the venue clause unless venue is the
wildcard, then the year clause unless year is the wildcard, both compared
case-insensitively. -/
def query_parts (keyword venue year : String) : List String :=
  [keyword]
    ++ (if pyLower venue ≠ "all" then [venue_clause venue] else [])
    ++ (if pyLower year ≠ "all" then [year_clause year] else [])

/-- Line 69: the parts joined by single spaces. -/
def query_string (keyword venue year : String) : String :=
  String.intercalate " " (query_parts keyword venue year)

/-- Line 59. -/
def max_retries : Nat := 5

/-- Line 60. -/
def initial_backoff : Nat := 5

/-- Lines 53-137: fetch results for one keyword/venue/year query.  The
transport oracle maps the built query string and the attempt index to the
response of that attempt. -/
def get_dblp_results (keyword venue year : String)
    (responses : String → Nat → Resp) (sleepTime : Nat) : FetchOut :=
  fetchLoop (responses (query_string keyword venue year)) sleepTime
    (max_retries + 1) initial_backoff [] [] 0

/-- Characters replaced by sanitize_filename (line 39).  The double quote
is written by code point to keep it out of a character literal. -/
def invalid_filename_chars : List Char :=
  ['\\', '/', '*', '?', ':', Char.ofNat 34, '<', '>', '|']

/-- Lines 37-39: replace every character illegal in file names by an
underscore. -/
def sanitize_filename (s : String) : String :=
  String.mk (s.data.map (fun c => if invalid_filename_chars.contains c then '_' else c))

/-- Line 45 applies re.sub to the raw title value; on a non-string that
raises TypeError. -/
def sanitize_filename_j : Json → Except PyError String
  | .str s => .ok (sanitize_filename s)
  | _ => .error .typeError

/-- Response of one artifact (BibTeX) request: download_bibtex only looks
at the status code and the body text. -/
inductive BibResp where
  | transportError
  | response (status : Nat) (text : String)

/-- Observable result of one download_bibtex call: the exception escaping
the function if any, the file written (name, contents) if any, and the
number of HTTP requests actually issued. -/
structure BibOut where
  raised : Option PyError
  saved : Option (String × String)
  attempts : Nat

/-- Line 43: response = session.get(url, headers, timeout=10).  requests
declares Session.get(self, url, **kwargs), accepting only the url
positionally, so passing headers as a second positional argument raises
TypeError unconditionally, before any request is issued; the transport
oracle is never consulted.  (Line 77 shows the correct keyword form the
author used for the main fetch.) -/
def session_get_positional_headers (_responses : Nat → BibResp) :
    Except PyError BibResp :=
  .error .typeError

/-- Lines 44-48, the rest of the try body after a session.get that
returned a response: raise_for_status, sanitize the title and write the
response text (the file write itself modeled as succeeding).  Dead code
in this program, since line 43 always raises first. -/
def download_bibtex_rest (title : Json) (resp : BibResp) :
    Except PyError (String × String) :=
  match resp with
  | .transportError => .error .requestException
  | .response status text =>
    if 400 ≤ status then .error .requestException
    else
      match sanitize_filename_j title with
      | .ok safe => .ok (safe ++ ".bib", text)
      | .error e => .error e

/-- Lines 41-51: the get of line 43, then the rest of the try body; the
except clause of line 50 catches RequestException only, so the TypeError
of line 43 (and any error other than a RequestException) escapes. -/
def download_bibtex (title : Json) (responses : Nat → BibResp) : BibOut :=
  match session_get_positional_headers responses with
  | .error .requestException => ⟨none, none, 0⟩
  | .error e => ⟨some e, none, 0⟩
  | .ok resp =>
    match download_bibtex_rest title resp with
    | .ok st => ⟨none, some st, 1⟩
    | .error .requestException => ⟨none, none, 1⟩
    | .error e => ⟨some e, none, 1⟩

/-- Python dict assignment all_results[keyword] = value: overwrite in
place when the key exists, else append, preserving insertion order. -/
def dictInsert (m : List (String × List Entry)) (k : String) (v : List Entry) :
    List (String × List Entry) :=
  if (List.lookup k m).isSome then
    m.map (fun p => if p.1 = k then (k, v) else p)
  else m ++ [(k, v)]

/-- Lines 200-202: the optional per-result BibTeX downloads; an exception
from any of them would propagate out of main. -/
def downloadAll (bibOracle : Json → Nat → BibResp) : List Entry → Except PyError Unit
  | [] => .ok ()
  | r :: rs =>
    match (download_bibtex r.title (bibOracle r.url)).raised with
    | some e => .error e
    | none => downloadAll bibOracle rs

/-- Lines 198-202: one Fetcher call of the Orchestrator loop plus its
optional auxiliary downloads.  main calls get_dblp_results with the
default sleep_time of 5. -/
def crawl_query (oracle : String → Nat → Resp) (bibOracle : Json → Nat → BibResp)
    (saveBibtex : Bool) (keyword venue year : String) : Except PyError (List Entry) :=
  match (get_dblp_results keyword venue year oracle 5).outcome with
  | .error e => .error e
  | .ok results =>
    if saveBibtex then
      match downloadAll bibOracle results with
      | .error e => .error e
      | .ok _ => .ok results
    else .ok results

/-- Line 196: the inner venue loop, extending the accumulated keyword
results. -/
def crawl_venues (oracle : String → Nat → Resp) (bibOracle : Json → Nat → BibResp)
    (saveBibtex : Bool) (keyword year : String) (acc : List Entry) :
    List String → Except PyError (List Entry)
  | [] => .ok acc
  | venue :: rest =>
    match crawl_query oracle bibOracle saveBibtex keyword venue year with
    | .error e => .error e
    | .ok results =>
      crawl_venues oracle bibOracle saveBibtex keyword year (acc ++ results) rest

/-- Line 195: the year loop (outer), running the venue loop (inner) for
each year. -/
def crawl_years (oracle : String → Nat → Resp) (bibOracle : Json → Nat → BibResp)
    (saveBibtex : Bool) (keyword : String) (acc : List Entry) (venues : List String) :
    List String → Except PyError (List Entry)
  | [] => .ok acc
  | year :: rest =>
    match crawl_venues oracle bibOracle saveBibtex keyword year acc venues with
    | .error e => .error e
    | .ok acc2 => crawl_years oracle bibOracle saveBibtex keyword acc2 venues rest

/-- Lines 194-199: results collected for one keyword across all years and
venues. -/
def crawl_keyword (oracle : String → Nat → Resp) (bibOracle : Json → Nat → BibResp)
    (saveBibtex : Bool) (keyword : String) (years venues : List String) :
    Except PyError (List Entry) :=
  crawl_years oracle bibOracle saveBibtex keyword [] venues years

/-- Lines 193-203: the keyword loop filling all_results. -/
def run_keywords (oracle : String → Nat → Resp) (bibOracle : Json → Nat → BibResp)
    (saveBibtex : Bool) (years venues : List String)
    (m : List (String × List Entry)) : List String →
    Except PyError (List (String × List Entry))
  | [] => .ok m
  | k :: rest =>
    match crawl_keyword oracle bibOracle saveBibtex k years venues with
    | .error e => .error e
    | .ok rs => run_keywords oracle bibOracle saveBibtex years venues (dictInsert m k rs) rest

/-- Lines 175-208 restricted to the fetch-and-aggregate core: the batch
run over the full keyword, year, venue product, returning the aggregation
map (or the exception that aborted the batch). -/
def run (oracle : String → Nat → Resp) (bibOracle : Json → Nat → BibResp)
    (saveBibtex : Bool) (keywords years venues : List String) :
    Except PyError (List (String × List Entry)) :=
  run_keywords oracle bibOracle saveBibtex years venues [] keywords

/-- Durations of the sleeps performed before retrying the same query,
dropping the inter-query pacing sleep. -/
def delaysOf (sleeps : List SleepEvent) : List Nat :=
  sleeps.filterMap (fun e =>
    match e with
    | .retryDelay d => some d
    | .pacing _ => none)

/-- Retry delays of one fetch, in order. -/
def retryDelays (out : FetchOut) : List Nat := delaysOf out.sleeps

/-- The sleep trace of a run whose every attempt fails at transport level:
one backoff sleep per retried attempt, doubling each time. -/
def backoffEvents : Nat → Nat → List SleepEvent
  | 0, _ => []
  | n + 1, b => .retryDelay b :: backoffEvents n (b * 2)

/-- Responses that do not carry a server-supplied Retry-After hint on a
429. -/
def noHint : Resp → Bool
  | .transportError => true
  | .httpResponse status retryAfter _ => !(status == 429 && retryAfter.isSome)

/-- JSON strings. -/
def isStrJson : Json → Bool
  | .str _ => true
  | _ => false

/-- Retry-After headers line 80 handles without raising: an absent header
(the integer backoff is used) or one parsing as a non-negative integer;
a non-integer value raises ValueError out of int() and a negative one
out of time.sleep. -/
def retryAfterOk : Option String → Bool
  | none => true
  | some s =>
    match pyIntOfChars s.data with
    | some n => decide (0 ≤ n)
    | none => false

/-- Decoded 2xx bodies on which lines 90-119 run to completion without an
uncaught exception: the zero-total break, a caught KeyError, or a fully
parsed hit list. -/
def bodyOk : Option Json → Bool
  | none => true
  | some d =>
    match processData d with
    | .ok none => true
    | .ok (some _) => true
    | .error .requestException => true
    | .error (.keyError _) => true
    | .error _ => false

/-- Responses the fetch loop survives without letting an exception escape
get_dblp_results: transport failures and error statuses are always
handled, a 429 needs a well-formed (or absent) Retry-After header, and a
2xx response needs a well-behaved body. -/
def respOk : Resp → Bool
  | .transportError => true
  | .httpResponse status retryAfter body =>
    if status == 429 then retryAfterOk retryAfter
    else if 400 ≤ status then true
    else bodyOk body

/-- Value of a successful fetch outcome. -/
def exOk : Except PyError (List Entry) → List Entry
  | .ok rs => rs
  | .error _ => []

/-- Elements of an authors.author list on which the join of line 106
works: objects whose text value, when present, is a string. -/
def textFieldOk (a : Json) : Bool :=
  match a with
  | .obj fs =>
    match List.lookup "text" fs with
    | none => true
    | some (.str _) => true
    | some _ => false
  | _ => false

/-- Author lists the join of line 106 accepts. -/
def authorListOk (xs : List Json) : Bool := xs.all textFieldOk

/-- Hit records the Normalizer (lines 102-119) processes without raising:
the hit is an object, its info value (when present) is an object, the
authors value inside info (when present) is an object, and when the
author value is a list it satisfies authorListOk.  Every other shape of
the author value itself is tolerated by the three-way dispatch. -/
def hitOk : Json → Bool
  | .obj fs =>
    match List.lookup "info" fs with
    | none => true
    | some (.obj infoFs) =>
      (match List.lookup "authors" infoFs with
       | none => true
       | some (.obj aFs) =>
         (match List.lookup "author" aFs with
          | some (.arr xs) => authorListOk xs
          | _ => true)
       | some _ => false)
    | some _ => false
  | _ => false

/-- One unfolding of the retry loop when the while-condition holds. -/
theorem fetchLoop_succ (responses : Nat → Resp) (s fuel backoff : Nat)
    (results : List Entry) (sleeps : List SleepEvent) (attempts : Nat) :
    fetchLoop responses s (fuel + 1) backoff results sleeps attempts =
      match tryBody (responses attempts) backoff with
      | .rateLimited d =>
        fetchLoop responses s fuel (backoff * 2) results
          (sleeps ++ [.retryDelay d]) (attempts + 1)
      | .breakEmpty => ⟨.ok results, sleeps, attempts + 1⟩
      | .breakSuccess es =>
        ⟨.ok (results ++ es), sleeps ++ [.pacing s], attempts + 1⟩
      | .raised .requestException =>
        match fuel with
        | 0 => ⟨.ok results, sleeps, attempts + 1⟩
        | _ + 1 =>
          fetchLoop responses s fuel (backoff * 2) results
            (sleeps ++ [.retryDelay backoff]) (attempts + 1)
      | .raised (.keyError _) => ⟨.ok results, sleeps, attempts + 1⟩
      | .raised e => ⟨.error e, sleeps, attempts + 1⟩ := rfl

/-- Against an always-failing transport, the loop spends its whole budget:
one backoff sleep per retried attempt, doubling each time, and returns the
results accumulated so far (none). -/
theorem fetchLoop_all_transport (responses : Nat → Resp) (s : Nat)
    (h : ∀ i, responses i = .transportError) :
    ∀ fuel backoff results sleeps attempts,
      fetchLoop responses s (fuel + 1) backoff results sleeps attempts
        = ⟨.ok results, sleeps ++ backoffEvents fuel backoff, attempts + fuel + 1⟩ := by
  intro fuel
  induction fuel with
  | zero =>
    intro backoff results sleeps attempts
    rw [fetchLoop_succ, h attempts]
    simp [tryBody, backoffEvents]
  | succ n ih =>
    intro backoff results sleeps attempts
    rw [fetchLoop_succ, h attempts]
    show fetchLoop responses s (n + 1) (backoff * 2) results
        (sleeps ++ [.retryDelay backoff]) (attempts + 1)
      = ⟨.ok results, sleeps ++ backoffEvents (n + 1) backoff, attempts + (n + 1) + 1⟩
    rw [ih]
    simp [FetchOut.mk.injEq, backoffEvents]
    omega

/-- A first response that is a 2xx whose body reports a zero total makes
the loop break at once: no sleep, no retry, empty result. -/
theorem fetch_first_zero (responses : Nat → Resp) (s st : Nat) (ra : Option String)
    (body : Json) (h0 : responses 0 = .httpResponse st ra (some body))
    (h429 : (st == 429) = false) (h400 : ¬ 400 ≤ st)
    (hz : totalHits body = .ok (.str "0")) :
    ∀ fuel backoff, fetchLoop responses s (fuel + 1) backoff [] [] 0 = ⟨.ok [], [], 1⟩ := by
  intro fuel backoff
  rw [fetchLoop_succ, h0]
  simp [tryBody, h429, h400, processData, hz, pyEqStr]

/-- With any of the three keys of the @total path missing, the defaulted
.get chain of line 90 yields the string "0". -/
theorem totalHits_missing (fs : List (String × Json))
    (h : List.lookup "result" fs = none
      ∨ (∃ rho, List.lookup "result" fs = some (.obj rho) ∧ List.lookup "hits" rho = none)
      ∨ (∃ rho hho, List.lookup "result" fs = some (.obj rho)
          ∧ List.lookup "hits" rho = some (.obj hho)
          ∧ List.lookup "@total" hho = none)) :
    totalHits (.obj fs) = .ok (.str "0") := by
  rcases h with h | ⟨rho, h1, h2⟩ | ⟨rho, hho, h1, h2, h3⟩
  · simp [totalHits, pyGet, h]
  · simp [totalHits, pyGet, h1, h2]
  · simp [totalHits, pyGet, h1, h2, h3]

/-- Splitting the retry-delay projection over an append. -/
theorem delaysOf_append (xs ys : List SleepEvent) :
    delaysOf (xs ++ ys) = delaysOf xs ++ delaysOf ys := by
  simp [delaysOf, List.filterMap_append]

/-- Appending an element bounded below by the whole list keeps the list
sorted. -/
theorem chain_append_le (ds : List Nat) (b : Nat)
    (hc : List.Chain' (· ≤ ·) ds) (hb : ∀ d ∈ ds, d ≤ b) :
    List.Chain' (· ≤ ·) (ds ++ [b]) := by
  rw [List.chain'_append]
  refine ⟨hc, List.chain'_singleton b, ?_⟩
  intro x hx y hy
  simp only [List.head?_cons, Option.mem_def, Option.some.injEq] at hy
  subst hy
  exact hb x (List.mem_of_mem_getLast? hx)

/-- Recording one more backoff sleep keeps the delay trace sorted. -/
theorem chain_delays_snoc (sleeps : List SleepEvent) (b : Nat)
    (hc : List.Chain' (· ≤ ·) (delaysOf sleeps))
    (hb : ∀ d ∈ delaysOf sleeps, d ≤ b) :
    List.Chain' (· ≤ ·) (delaysOf (sleeps ++ [.retryDelay b])) := by
  rw [delaysOf_append]
  exact chain_append_le _ _ hc hb

/-- After doubling the backoff, the doubled value still bounds every
recorded delay. -/
theorem bound_delays_snoc (sleeps : List SleepEvent) (b : Nat)
    (hb : ∀ d ∈ delaysOf sleeps, d ≤ b) :
    ∀ d ∈ delaysOf (sleeps ++ [.retryDelay b]), d ≤ b * 2 := by
  intro d hd
  rw [delaysOf_append] at hd
  rcases List.mem_append.mp hd with h | h
  · exact le_trans (hb d h) (by omega)
  · simp [delaysOf] at h
    omega

/-- A pacing sleep contributes nothing to the retry-delay trace. -/
theorem delaysOf_pacing (sleeps : List SleepEvent) (s : Nat) :
    delaysOf (sleeps ++ [.pacing s]) = delaysOf sleeps := by
  rw [delaysOf_append]
  simp [delaysOf]

/-- When no response carries a Retry-After hint, every sleep before a
retry is the current backoff value, which only ever doubles, so the
retry-delay trace of the whole loop stays non-decreasing. -/
theorem fetchLoop_delays_mono (responses : Nat → Resp) (s : Nat)
    (hNo : ∀ i, noHint (responses i) = true) :
    ∀ fuel backoff results sleeps attempts,
      List.Chain' (· ≤ ·) (delaysOf sleeps) →
      (∀ d ∈ delaysOf sleeps, d ≤ backoff) →
      List.Chain' (· ≤ ·)
        (delaysOf (fetchLoop responses s fuel backoff results sleeps attempts).sleeps) := by
  intro fuel
  induction fuel with
  | zero =>
    intro backoff results sleeps attempts hc hb
    exact hc
  | succ n ih =>
    intro backoff results sleeps attempts hc hb
    rw [fetchLoop_succ]
    cases hresp : responses attempts with
    | transportError =>
      simp only [tryBody]
      cases n with
      | zero => exact hc
      | succ m => exact ih _ _ _ _ (chain_delays_snoc _ _ hc hb) (bound_delays_snoc _ _ hb)
    | httpResponse st ra body =>
      have hNo2 := hNo attempts
      rw [hresp] at hNo2
      by_cases h429 : (st == 429) = true
      · have hra : ra = none := by
          cases ra with
          | none => rfl
          | some x => simp [noHint, h429] at hNo2
        subst hra
        have step : tryBody (Resp.httpResponse st none body) backoff
            = .rateLimited backoff := by
          have hnn : ¬((backoff : Int) < 0) := by omega
          simp [tryBody, h429, parse_retry_after, hnn, Int.toNat_natCast]
        rw [step]
        exact ih _ _ _ _ (chain_delays_snoc _ _ hc hb) (bound_delays_snoc _ _ hb)
      · rw [Bool.not_eq_true] at h429
        by_cases h400 : 400 ≤ st
        · simp only [tryBody, h429, Bool.false_eq_true, if_false, h400, if_true]
          cases n with
          | zero => exact hc
          | succ m => exact ih _ _ _ _ (chain_delays_snoc _ _ hc hb) (bound_delays_snoc _ _ hb)
        · cases body with
          | none =>
            simp only [tryBody, h429, Bool.false_eq_true, if_false, h400]
            cases n with
            | zero => exact hc
            | succ m => exact ih _ _ _ _ (chain_delays_snoc _ _ hc hb) (bound_delays_snoc _ _ hb)
          | some d =>
            cases hpd : processData d with
            | ok o =>
              cases o with
              | none =>
                simp only [tryBody, h429, Bool.false_eq_true, if_false, h400, hpd]
                exact hc
              | some es =>
                simp only [tryBody, h429, Bool.false_eq_true, if_false, h400, hpd]
                rw [delaysOf_pacing]
                exact hc
            | error e =>
              simp only [tryBody, h429, Bool.false_eq_true, if_false, h400, hpd]
              cases e with
              | requestException =>
                cases n with
                | zero => exact hc
                | succ m =>
                  exact ih _ _ _ _ (chain_delays_snoc _ _ hc hb) (bound_delays_snoc _ _ hb)
              | keyError k => exact hc
              | valueError => exact hc
              | typeError => exact hc
              | attributeError => exact hc

/-- Under well-behaved responses the loop never lets an exception escape:
it always returns a list of entries. -/
theorem fetchLoop_ok_of_respOk (responses : Nat → Resp) (s : Nat)
    (hOk : ∀ i, respOk (responses i) = true) :
    ∀ fuel backoff results sleeps attempts,
      ∃ es, (fetchLoop responses s fuel backoff results sleeps attempts).outcome
        = .ok es := by
  intro fuel
  induction fuel with
  | zero =>
    intro backoff results sleeps attempts
    exact ⟨results, rfl⟩
  | succ n ih =>
    intro backoff results sleeps attempts
    rw [fetchLoop_succ]
    cases hresp : responses attempts with
    | transportError =>
      simp only [tryBody]
      cases n with
      | zero => exact ⟨results, rfl⟩
      | succ m => exact ih _ _ _ _
    | httpResponse st ra body =>
      have hOk2 := hOk attempts
      rw [hresp] at hOk2
      by_cases h429 : (st == 429) = true
      · have hra : retryAfterOk ra = true := by
          simpa [respOk, h429] using hOk2
        obtain ⟨d, hd⟩ : ∃ d, tryBody (Resp.httpResponse st ra body) backoff
            = .rateLimited d := by
          cases ra with
          | none =>
            refine ⟨(backoff : Int).toNat, ?_⟩
            have hnn : ¬((backoff : Int) < 0) := by omega
            simp [tryBody, h429, parse_retry_after, hnn]
          | some hs =>
            cases hp : pyIntOfChars hs.data with
            | none => simp [retryAfterOk, hp] at hra
            | some m =>
              have h0m : 0 ≤ m := by simpa [retryAfterOk, hp] using hra
              have hnn : ¬(m < 0) := by omega
              exact ⟨m.toNat, by simp [tryBody, h429, parse_retry_after, hp, hnn]⟩
        rw [hd]
        exact ih _ _ _ _
      · rw [Bool.not_eq_true] at h429
        by_cases h400 : 400 ≤ st
        · simp only [tryBody, h429, Bool.false_eq_true, if_false, h400, if_true]
          cases n with
          | zero => exact ⟨results, rfl⟩
          | succ m => exact ih _ _ _ _
        · have hbody : bodyOk body = true := by
            simp only [respOk, h429, Bool.false_eq_true, if_false, h400] at hOk2
            exact hOk2
          cases body with
          | none =>
            simp only [tryBody, h429, Bool.false_eq_true, if_false, h400]
            cases n with
            | zero => exact ⟨results, rfl⟩
            | succ m => exact ih _ _ _ _
          | some d =>
            cases hpd : processData d with
            | ok o =>
              cases o with
              | none =>
                simp only [tryBody, h429, Bool.false_eq_true, if_false, h400, hpd]
                exact ⟨results, rfl⟩
              | some es =>
                simp only [tryBody, h429, Bool.false_eq_true, if_false, h400, hpd]
                exact ⟨results ++ es, rfl⟩
            | error e =>
              simp only [tryBody, h429, Bool.false_eq_true, if_false, h400, hpd]
              cases e with
              | requestException =>
                cases n with
                | zero => exact ⟨results, rfl⟩
                | succ m => exact ih _ _ _ _
              | keyError k2 => exact ⟨results, rfl⟩
              | valueError => simp [bodyOk, hpd] at hbody
              | typeError => simp [bodyOk, hpd] at hbody
              | attributeError => simp [bodyOk, hpd] at hbody

/-- Lookup after the overwrite branch of a dict assignment. -/
theorem lookup_map_replace (k : String) (v : List Entry) :
    ∀ m : List (String × List Entry),
      List.lookup k (m.map (fun p => if p.1 = k then (k, v) else p))
        = if (List.lookup k m).isSome then some v else none := by
  intro m
  induction m with
  | nil => simp
  | cons p t ih =>
    obtain ⟨a, b⟩ := p
    by_cases hak : a = k
    · subst hak
      simp [List.lookup_cons]
    · have hne : (k == a) = false := beq_eq_false_iff_ne.mpr (Ne.symm hak)
      simp only [List.map_cons, if_neg hak, List.lookup_cons, hne, ih]

/-- Lookup after the append branch of a dict assignment. -/
theorem lookup_append_single (k : String) (v : List Entry) :
    ∀ m : List (String × List Entry),
      List.lookup k (m ++ [(k, v)])
        = if (List.lookup k m).isSome then List.lookup k m else some v := by
  intro m
  induction m with
  | nil => simp [List.lookup_cons]
  | cons p t ih =>
    obtain ⟨a, b⟩ := p
    by_cases hak : (k == a) = true
    · simp [List.lookup_cons, hak]
    · rw [Bool.not_eq_true] at hak
      simp only [List.cons_append, List.lookup_cons, hak, ih]

/-- Assigning a key makes it present with the assigned value. -/
theorem lookup_dictInsert_self (m : List (String × List Entry)) (k : String)
    (v : List Entry) : List.lookup k (dictInsert m k v) = some v := by
  unfold dictInsert
  by_cases h : (List.lookup k m).isSome
  · rw [if_pos h, lookup_map_replace, if_pos h]
  · rw [if_neg h, lookup_append_single, if_neg h]

/-- The overwrite branch leaves every other key unchanged. -/
theorem lookup_map_replace_ne (k k2 : String) (v : List Entry)
    (hb : (k2 == k) = false) :
    ∀ m : List (String × List Entry),
      List.lookup k2 (m.map (fun p => if p.1 = k then (k, v) else p))
        = List.lookup k2 m := by
  intro m
  induction m with
  | nil => simp
  | cons p t ih =>
    obtain ⟨a, b⟩ := p
    by_cases hak : a = k
    · subst hak
      simp [List.lookup_cons, hb, ih]
    · simp [hak, List.lookup_cons, ih]

/-- The append branch leaves every other key unchanged. -/
theorem lookup_append_single_ne (k k2 : String) (v : List Entry)
    (hb : (k2 == k) = false) :
    ∀ m : List (String × List Entry),
      List.lookup k2 (m ++ [(k, v)]) = List.lookup k2 m := by
  intro m
  induction m with
  | nil => simp [List.lookup_cons, hb]
  | cons p t ih =>
    obtain ⟨a, b⟩ := p
    simp only [List.cons_append, List.lookup_cons, ih]

/-- Assigning one key leaves every other key unchanged. -/
theorem lookup_dictInsert_ne (m : List (String × List Entry)) (k k2 : String)
    (v : List Entry) (hne : k2 ≠ k) :
    List.lookup k2 (dictInsert m k v) = List.lookup k2 m := by
  have hb : (k2 == k) = false := beq_eq_false_iff_ne.mpr hne
  unfold dictInsert
  by_cases h : (List.lookup k m).isSome
  · rw [if_pos h, lookup_map_replace_ne k k2 v hb]
  · rw [if_neg h, lookup_append_single_ne k k2 v hb]

/-- One Orchestrator step with auxiliary downloads disabled returns
exactly the Fetcher's entries when the fetch succeeded.  (With downloads
enabled and a non-empty result, the step instead raises the TypeError of
line 43.) -/
theorem crawl_query_eq (oracle : String → Nat → Resp) (bibOracle : Json → Nat → BibResp)
    (k v y : String) (es : List Entry)
    (hf : (get_dblp_results k v y oracle 5).outcome = .ok es) :
    crawl_query oracle bibOracle false k v y = .ok es := by
  unfold crawl_query
  rw [hf]
  rfl

/-- Under well-behaved responses one download-free Orchestrator step
succeeds. -/
theorem crawl_query_ok (oracle : String → Nat → Resp) (bibOracle : Json → Nat → BibResp)
    (k v y : String)
    (hOk : ∀ i, respOk (oracle (query_string k v y) i) = true) :
    ∃ es, crawl_query oracle bibOracle false k v y = .ok es := by
  obtain ⟨es, he⟩ := fetchLoop_ok_of_respOk (oracle (query_string k v y)) 5 hOk
    (max_retries + 1) initial_backoff [] [] 0
  exact ⟨es, crawl_query_eq oracle bibOracle k v y es he⟩

/-- The venue loop concatenates the per-venue results onto the
accumulator, in venue order. -/
theorem crawl_venues_eq (oracle : String → Nat → Resp) (bibOracle : Json → Nat → BibResp)
    (sb : Bool) (k y : String) (G : String → List Entry)
    (hq : ∀ v, crawl_query oracle bibOracle sb k v y = .ok (G v)) :
    ∀ venues acc, crawl_venues oracle bibOracle sb k y acc venues
      = .ok (acc ++ venues.flatMap G) := by
  intro venues
  induction venues with
  | nil =>
    intro acc
    simp [crawl_venues]
  | cons v t ih =>
    intro acc
    simp only [crawl_venues, hq v, ih (acc ++ G v), List.flatMap_cons, List.append_assoc]

/-- The year loop concatenates the per-year results onto the accumulator,
in year order. -/
theorem crawl_years_eq (oracle : String → Nat → Resp) (bibOracle : Json → Nat → BibResp)
    (sb : Bool) (k : String) (venues : List String) (G2 : String → List Entry)
    (hy : ∀ y acc, crawl_venues oracle bibOracle sb k y acc venues = .ok (acc ++ G2 y)) :
    ∀ years acc, crawl_years oracle bibOracle sb k acc venues years
      = .ok (acc ++ years.flatMap G2) := by
  intro years
  induction years with
  | nil =>
    intro acc
    simp [crawl_years]
  | cons y t ih =>
    intro acc
    simp only [crawl_years, hy y acc, ih (acc ++ G2 y), List.flatMap_cons, List.append_assoc]

/-- Under well-behaved responses a whole download-free keyword crawl
succeeds. -/
theorem crawl_keyword_ok (oracle : String → Nat → Resp) (bibOracle : Json → Nat → BibResp)
    (k : String) (years venues : List String)
    (hOk : ∀ q i, respOk (oracle q i) = true) :
    ∃ rs, crawl_keyword oracle bibOracle false k years venues = .ok rs := by
  have hq : ∀ v y, crawl_query oracle bibOracle false k v y
      = .ok (exOk (crawl_query oracle bibOracle false k v y)) := by
    intro v y
    obtain ⟨es, he⟩ := crawl_query_ok oracle bibOracle k v y (fun i => hOk _ i)
    rw [he]
    rfl
  have hy : ∀ y acc, crawl_venues oracle bibOracle false k y acc venues
      = .ok (acc ++ venues.flatMap (fun v => exOk (crawl_query oracle bibOracle false k v y))) :=
    fun y acc => crawl_venues_eq oracle bibOracle false k y _ (fun v => hq v y) venues acc
  exact ⟨_, crawl_years_eq oracle bibOracle false k venues _ hy years []⟩

/-- The keyword loop assigns each processed keyword its crawl result and
touches no other key. -/
theorem run_keywords_lookup (oracle : String → Nat → Resp) (bibOracle : Json → Nat → BibResp)
    (sb : Bool) (years venues : List String) (agg : String → List Entry)
    (hagg : ∀ k, crawl_keyword oracle bibOracle sb k years venues = .ok (agg k)) :
    ∀ ks m, ∃ M, run_keywords oracle bibOracle sb years venues m ks = .ok M
      ∧ ∀ k, List.lookup k M = if k ∈ ks then some (agg k) else List.lookup k m := by
  intro ks
  induction ks with
  | nil =>
    intro m
    refine ⟨m, rfl, fun k => ?_⟩
    simp
  | cons a t ih =>
    intro m
    obtain ⟨M, hM, hl⟩ := ih (dictInsert m a (agg a))
    refine ⟨M, ?_, ?_⟩
    · simp only [run_keywords, hagg a]
      exact hM
    · intro k
      rw [hl k]
      by_cases hkt : k ∈ t
      · simp [hkt, List.mem_cons]
      · by_cases hka : k = a
        · subst hka
          simp [hkt, lookup_dictInsert_self]
        · simp [hkt, hka, lookup_dictInsert_ne m a k (agg a) hka]

/-- Draining the generator of line 106 over a well-shaped author list
yields string text values. -/
theorem mapExcept_text_ok :
    ∀ xs : List Json, authorListOk xs = true →
      ∃ ts, mapExcept (fun a => pyGet a "text" (.str "")) xs = .ok ts
        ∧ ts.all isStrJson = true := by
  intro xs
  induction xs with
  | nil => intro h; exact ⟨[], rfl, rfl⟩
  | cons a t ih =>
    intro h
    rw [authorListOk, List.all_cons, Bool.and_eq_true] at h
    obtain ⟨h1, h2⟩ := h
    have ha : ∃ j, pyGet a "text" (.str "") = .ok j ∧ isStrJson j = true := by
      cases a with
      | obj fs =>
        cases hl : List.lookup "text" fs with
        | none => exact ⟨.str "", by simp [pyGet, hl], rfl⟩
        | some w =>
          cases w with
          | str s => exact ⟨.str s, by simp [pyGet, hl], rfl⟩
          | null => simp [textFieldOk, hl] at h1
          | num n => simp [textFieldOk, hl] at h1
          | arr l => simp [textFieldOk, hl] at h1
          | obj l => simp [textFieldOk, hl] at h1
      | null => simp [textFieldOk] at h1
      | str s => simp [textFieldOk] at h1
      | num n => simp [textFieldOk] at h1
      | arr l => simp [textFieldOk] at h1
    obtain ⟨j, hj, hsj⟩ := ha
    obtain ⟨ts, hts, hall⟩ := ih h2
    refine ⟨j :: ts, ?_, ?_⟩
    · simp only [mapExcept, hj, hts]
    · simp [List.all_cons, hsj, hall]

/-- The type check of str.join succeeds on string items. -/
theorem mapExcept_strOnly_ok :
    ∀ ts : List Json, ts.all isStrJson = true → ∃ ss, mapExcept strOnly ts = .ok ss := by
  intro ts
  induction ts with
  | nil => intro h; exact ⟨[], rfl⟩
  | cons a t ih =>
    intro h
    rw [List.all_cons, Bool.and_eq_true] at h
    obtain ⟨h1, h2⟩ := h
    obtain ⟨ss, hss⟩ := ih h2
    cases a with
    | str s => exact ⟨s :: ss, by simp only [mapExcept, strOnly, hss]⟩
    | null => simp [isStrJson] at h1
    | num n => simp [isStrJson] at h1
    | arr l => simp [isStrJson] at h1
    | obj l => simp [isStrJson] at h1

/-- The list branch of the authors dispatch succeeds on a well-shaped
author list. -/
theorem normalizeAuthors_arr_ok (xs : List Json) (h : authorListOk xs = true) :
    ∃ j, normalizeAuthors (.arr xs) = .ok j := by
  obtain ⟨ts, hts, hall⟩ := mapExcept_text_ok xs h
  obtain ⟨ss, hss⟩ := mapExcept_strOnly_ok ts hall
  exact ⟨.str (String.intercalate ", " ss), by simp only [normalizeAuthors, joinTexts, hts, hss]⟩

/-- The Normalizer runs to completion on every well-shaped hit record. -/
theorem normalizeHit_ok_of_hitOk (hit : Json) (h : hitOk hit = true) :
    (normalizeHit hit).isOk = true := by
  cases hit with
  | null => simp [hitOk] at h
  | str s => simp [hitOk] at h
  | num n => simp [hitOk] at h
  | arr xs => simp [hitOk] at h
  | obj fs =>
    cases hInfo : List.lookup "info" fs with
    | none =>
      simp [normalizeHit, pyGet, hInfo, normalizeAuthors, joinTexts, mapExcept, Except.isOk, Except.toBool]
    | some info =>
      cases info with
      | null => simp [hitOk, hInfo] at h
      | str s => simp [hitOk, hInfo] at h
      | num n => simp [hitOk, hInfo] at h
      | arr l => simp [hitOk, hInfo] at h
      | obj infoFs =>
        cases hA : List.lookup "authors" infoFs with
        | none =>
          simp [normalizeHit, pyGet, hInfo, hA, normalizeAuthors, joinTexts, mapExcept,
            Except.isOk, Except.toBool]
        | some af =>
          cases af with
          | null => simp [hitOk, hInfo, hA] at h
          | str s => simp [hitOk, hInfo, hA] at h
          | num n => simp [hitOk, hInfo, hA] at h
          | arr l => simp [hitOk, hInfo, hA] at h
          | obj aFs =>
            cases hAu : List.lookup "author" aFs with
            | none =>
              simp [normalizeHit, pyGet, hInfo, hA, hAu, normalizeAuthors, joinTexts,
                mapExcept, Except.isOk, Except.toBool]
            | some av =>
              cases av with
              | arr xs =>
                have hxs : authorListOk xs = true := by
                  simpa [hitOk, hInfo, hA, hAu] using h
                obtain ⟨j, hj⟩ := normalizeAuthors_arr_ok xs hxs
                simp [normalizeHit, pyGet, hInfo, hA, hAu, hj, Except.isOk, Except.toBool]
              | obj ofs =>
                simp [normalizeHit, pyGet, hInfo, hA, hAu, normalizeAuthors, Except.isOk, Except.toBool]
              | str s =>
                simp [normalizeHit, pyGet, hInfo, hA, hAu, normalizeAuthors, Except.isOk, Except.toBool]
              | num n =>
                simp [normalizeHit, pyGet, hInfo, hA, hAu, normalizeAuthors, Except.isOk, Except.toBool]
              | null =>
                simp [normalizeHit, pyGet, hInfo, hA, hAu, normalizeAuthors, Except.isOk, Except.toBool]

/-- A venue clause always starts with a different character than a year
clause, so the two kinds of clause never collide. -/
theorem venue_clause_ne_year_clause (v y : String) : venue_clause v ≠ year_clause y := by
  intro h
  have h2 := congrArg String.data h
  simp only [venue_clause, year_clause, String.data_append] at h2
  simp [List.cons_append] at h2

/-- C2: against an always-failing transport, fetch abandons the query and
returns the empty result list after exactly max_retries + 1 request
attempts, with non-decreasing (indeed strictly increasing) sleep delays
5, 10, 20, 40, 80 between consecutive attempts. -/
theorem C2_exhausted_retries (k v y : String) (responses : String → Nat → Resp)
    (sleepTime : Nat)
    (h : ∀ i, responses (query_string k v y) i = .transportError) :
    get_dblp_results k v y responses sleepTime
      = ⟨.ok [], [.retryDelay 5, .retryDelay 10, .retryDelay 20, .retryDelay 40,
          .retryDelay 80], max_retries + 1⟩
    ∧ List.Chain' (· ≤ ·) (retryDelays (get_dblp_results k v y responses sleepTime)) := by
  have h1 : get_dblp_results k v y responses sleepTime
      = ⟨.ok [], [] ++ backoffEvents max_retries initial_backoff, 0 + max_retries + 1⟩ :=
    fetchLoop_all_transport (responses (query_string k v y)) sleepTime h max_retries
      initial_backoff [] [] 0
  constructor
  · rw [h1]
    rfl
  · rw [h1]
    show List.Chain' (· ≤ ·) [5, 10, 20, 40, 80]
    norm_num [List.chain'_cons]

/-- Witness for C2 at a concrete dead transport. -/
theorem C2_witness :
    get_dblp_results "kw" "all" "all" (fun _ _ => Resp.transportError) 0
      = ⟨.ok [], [.retryDelay 5, .retryDelay 10, .retryDelay 20, .retryDelay 40,
          .retryDelay 80], max_retries + 1⟩
    ∧ List.Chain' (· ≤ ·)
        (retryDelays (get_dblp_results "kw" "all" "all" (fun _ _ => Resp.transportError) 0)) :=
  C2_exhausted_retries "kw" "all" "all" (fun _ _ => Resp.transportError) 0 (fun _ => rfl)

/-- C4 is false as stated: a transport failure (sleeping the 5-second
backoff) followed by a 429 carrying a Retry-After hint of 1 second makes
the delays slept before consecutive retries of the same query decrease
from 5 to 1. -/
theorem C4_counterexample :
    retryDelays (get_dblp_results "k" "all" "all"
        (fun _ i => if i = 0 then Resp.transportError
          else if i = 1 then Resp.httpResponse 429 (some "1") none
          else Resp.httpResponse 200 none (some (Json.obj []))) 5)
      = [5, 1]
    ∧ ¬ List.Chain' (· ≤ ·) (retryDelays (get_dblp_results "k" "all" "all"
        (fun _ i => if i = 0 then Resp.transportError
          else if i = 1 then Resp.httpResponse 429 (some "1") none
          else Resp.httpResponse 200 none (some (Json.obj []))) 5)) := by
  have he : retryDelays (get_dblp_results "k" "all" "all"
      (fun _ i => if i = 0 then Resp.transportError
        else if i = 1 then Resp.httpResponse 429 (some "1") none
        else Resp.httpResponse 200 none (some (Json.obj []))) 5) = [5, 1] := rfl
  refine ⟨he, ?_⟩
  intro hch
  rw [he, List.chain'_cons] at hch
  exact absurd hch.1 (by omega)

/-- C4 (amended): when no observed 429 carries a Retry-After hint, every
sleep before a retry uses the current backoff, which only doubles, so the
delays slept before consecutive retries of one query are non-decreasing. -/
theorem C4_amended (k v y : String) (responses : String → Nat → Resp) (sleepTime : Nat)
    (h : ∀ i, noHint (responses (query_string k v y) i) = true) :
    List.Chain' (· ≤ ·) (retryDelays (get_dblp_results k v y responses sleepTime)) := by
  exact fetchLoop_delays_mono (responses (query_string k v y)) sleepTime h
    (max_retries + 1) initial_backoff [] [] 0 List.chain'_nil
    (fun d hd => absurd hd (by simp [delaysOf]))

/-- Witness for C4 at a hint-less rate-limited transport. -/
theorem C4_witness :
    List.Chain' (· ≤ ·) (retryDelays (get_dblp_results "kw" "all" "2023"
      (fun _ _ => Resp.httpResponse 429 none none) 0)) :=
  C4_amended "kw" "all" "2023" (fun _ _ => Resp.httpResponse 429 none none) 0 (fun _ => rfl)

/-- C5: a 429 whose Retry-After header parses to the hint, followed by a
200 whose body parses to a non-empty hit list, makes fetch sleep exactly
the hinted delay once, retry once, and return the parsed entries; the
429 never escapes.  The only other sleep is the inter-query pacing delay
of the success path. -/
theorem C5_rate_limited_then_success (k v y : String) (responses : String → Nat → Resp)
    (sleepTime hint : Nat) (hintStr : String) (b0 : Option Json) (ra : Option String)
    (body : Json) (entries : List Entry)
    (h0 : responses (query_string k v y) 0 = .httpResponse 429 (some hintStr) b0)
    (hparse : pyIntOfChars hintStr.data = some (hint : Int))
    (h1 : responses (query_string k v y) 1 = .httpResponse 200 ra (some body))
    (hp : processData body = .ok (some entries)) :
    get_dblp_results k v y responses sleepTime
      = ⟨.ok entries, [.retryDelay hint, .pacing sleepTime], 2⟩ := by
  unfold get_dblp_results
  rw [fetchLoop_succ, h0]
  have step1 : tryBody (Resp.httpResponse 429 (some hintStr) b0) initial_backoff
      = .rateLimited hint := by
    have hnn : ¬(((hint : Nat) : Int) < 0) := by omega
    simp [tryBody, parse_retry_after, hparse, hnn]
  rw [step1]
  show fetchLoop (responses (query_string k v y)) sleepTime (4 + 1)
    (initial_backoff * 2) [] [.retryDelay hint] 1
    = ⟨.ok entries, [.retryDelay hint, .pacing sleepTime], 2⟩
  rw [fetchLoop_succ, h1]
  have step2 : tryBody (Resp.httpResponse 200 ra (some body)) (initial_backoff * 2)
      = .breakSuccess entries := by
    simp [tryBody, hp]
  rw [step2]
  rfl

/-- Witness for C5: a Retry-After header of "3", then a 200 with one
hit. -/
theorem C5_witness :
    get_dblp_results "kw" "all" "2024"
      (fun _ i => if i = 0 then Resp.httpResponse 429 (some "3") none
        else Resp.httpResponse 200 none
          (some (Json.obj [("result", Json.obj [("hits", Json.obj [("@total", Json.str "1"),
            ("hit", Json.obj [("info", Json.obj [("title", Json.str "T")])])])])]))) 7
      = ⟨.ok [⟨.str "T", .str "", .str "", .str "", .str ""⟩],
          [.retryDelay 3, .pacing 7], 2⟩ :=
  C5_rate_limited_then_success "kw" "all" "2024" _ 7 3 "3" none none
    (Json.obj [("result", Json.obj [("hits", Json.obj [("@total", Json.str "1"),
      ("hit", Json.obj [("info", Json.obj [("title", Json.str "T")])])])])])
    [⟨.str "T", .str "", .str "", .str "", .str ""⟩] rfl rfl rfl rfl

/-- C6: a 200 whose body reports the total "0" makes fetch return the
empty list on the first attempt, with no sleep and no retry (one request
attempt, retry counter untouched). -/
theorem C6_zero_total (k v y : String) (responses : String → Nat → Resp) (sleepTime : Nat)
    (ra : Option String) (body : Json)
    (h0 : responses (query_string k v y) 0 = .httpResponse 200 ra (some body))
    (hz : totalHits body = .ok (.str "0")) :
    get_dblp_results k v y responses sleepTime = ⟨.ok [], [], 1⟩ := by
  unfold get_dblp_results
  exact fetch_first_zero (responses (query_string k v y)) sleepTime 200 ra body h0 rfl
    (by omega) hz max_retries initial_backoff

/-- Witness for C6 at a concrete zero-total response. -/
theorem C6_witness :
    get_dblp_results "kw" "ICLR" "2024"
      (fun _ _ => Resp.httpResponse 200 none
        (some (Json.obj [("result", Json.obj [("hits",
          Json.obj [("@total", Json.str "0")])])]))) 5
      = ⟨.ok [], [], 1⟩ :=
  C6_zero_total "kw" "ICLR" "2024" _ 5 none
    (Json.obj [("result", Json.obj [("hits", Json.obj [("@total", Json.str "0")])])])
    rfl rfl

/-- C10: a 200 whose JSON object body lacks the result key, the
result.hits key, or the result.hits.@total key is treated exactly like a
zero total: empty result on the first attempt, no sleep, no retry, no
exception. -/
theorem C10_missing_keys (k v y : String) (responses : String → Nat → Resp)
    (sleepTime : Nat) (ra : Option String) (fs : List (String × Json))
    (h0 : responses (query_string k v y) 0 = .httpResponse 200 ra (some (.obj fs)))
    (hmiss : List.lookup "result" fs = none
      ∨ (∃ rho, List.lookup "result" fs = some (.obj rho) ∧ List.lookup "hits" rho = none)
      ∨ (∃ rho hho, List.lookup "result" fs = some (.obj rho)
          ∧ List.lookup "hits" rho = some (.obj hho)
          ∧ List.lookup "@total" hho = none)) :
    get_dblp_results k v y responses sleepTime = ⟨.ok [], [], 1⟩ := by
  unfold get_dblp_results
  exact fetch_first_zero (responses (query_string k v y)) sleepTime 200 ra (.obj fs) h0 rfl
    (by omega) (totalHits_missing fs hmiss) max_retries initial_backoff

/-- Witness for C10 at a body missing the result key altogether. -/
theorem C10_witness :
    get_dblp_results "kw" "all" "all"
      (fun _ _ => Resp.httpResponse 200 none (some (Json.obj []))) 5
      = ⟨.ok [], [], 1⟩ :=
  C10_missing_keys "kw" "all" "all" _ 5 none [] rfl (Or.inl rfl)

/-- C1 is false as stated, in three independent ways.  A decoded 2xx
response whose @total value is the non-integer string "many" makes
line 95 (count = int(total_hits)) raise a ValueError that neither except
clause catches, so the exception escapes get_dblp_results and the batch
loop.  A 429 whose Retry-After header is the non-integer string "soon"
makes line 80's int() raise the same uncaught ValueError.  And with
auxiliary downloads enabled, the first fetched result makes line 43
raise an uncaught TypeError (headers passed positionally to
Session.get), aborting the batch.  In each case run returns no
aggregation map at all, let alone an entry for every keyword. -/
theorem C1_counterexample :
    (get_dblp_results "k" "all" "2024"
        (fun _ _ => Resp.httpResponse 200 none
          (some (Json.obj [("result", Json.obj [("hits",
            Json.obj [("@total", Json.str "many")])])]))) 5).outcome
      = .error .valueError
    ∧ run (fun _ _ => Resp.httpResponse 200 none
          (some (Json.obj [("result", Json.obj [("hits",
            Json.obj [("@total", Json.str "many")])])])))
        (fun _ _ => BibResp.transportError) false ["k"] ["2024"] ["all"]
      = .error .valueError
    ∧ (get_dblp_results "k" "all" "2024"
        (fun _ _ => Resp.httpResponse 429 (some "soon") none) 5).outcome
      = .error .valueError
    ∧ run (fun _ _ => Resp.httpResponse 200 none
          (some (Json.obj [("result", Json.obj [("hits", Json.obj [("@total", Json.str "1"),
            ("hit", Json.obj [("info", Json.obj [("title", Json.str "t")])])])])])))
        (fun _ _ => BibResp.transportError) true ["k"] ["2024"] ["all"]
      = .error .typeError :=
  ⟨rfl, rfl, rfl, rfl⟩

/-- C1 (amended): with auxiliary downloads disabled, and provided every
429's Retry-After header is absent or parses as a non-negative integer
and every decoded 2xx body raises no uncaught exception while being
processed (transport failures, error statuses and undecodable bodies
remain arbitrary), no error escapes fetch or the batch loop, and run
returns an aggregation map with an entry for every keyword.  Outside
this envelope the batch aborts: see the counterexample for the
non-integer @total (line 95), the non-integer Retry-After (line 80) and
the download TypeError (line 43). -/
theorem C1_amended (oracle : String → Nat → Resp) (bibOracle : Json → Nat → BibResp)
    (keywords years venues : List String)
    (hOk : ∀ q i, respOk (oracle q i) = true) :
    ∃ M, run oracle bibOracle false keywords years venues = .ok M
      ∧ ∀ k ∈ keywords, (List.lookup k M).isSome = true := by
  have hagg : ∀ k, crawl_keyword oracle bibOracle false k years venues
      = .ok (exOk (crawl_keyword oracle bibOracle false k years venues)) := by
    intro k
    obtain ⟨rs, h⟩ := crawl_keyword_ok oracle bibOracle k years venues hOk
    rw [h]
    rfl
  obtain ⟨M, hM, hl⟩ :=
    run_keywords_lookup oracle bibOracle false years venues _ hagg keywords []
  refine ⟨M, hM, ?_⟩
  intro k hk
  rw [hl k, if_pos hk]
  rfl

/-- Witness for the amended C1: an all-failing transport without
downloads still yields a map with entries for both keywords. -/
theorem C1_witness :
    ∃ M, run (fun _ _ => Resp.transportError) (fun _ _ => BibResp.transportError) false
        ["a", "b"] ["2024"] ["all"] = .ok M
      ∧ ∀ k ∈ ["a", "b"], (List.lookup k M).isSome = true :=
  C1_amended (fun _ _ => Resp.transportError) (fun _ _ => BibResp.transportError)
    ["a", "b"] ["2024"] ["all"] (fun _ _ => rfl)

/-- C3 is right about the intent but the code is wrong: line 43 passes
headers positionally to requests.Session.get, whose signature
get(self, url, **kwargs) accepts only the url positionally, so every
download_bibtex call raises a TypeError before a single request is
issued; the except clause of line 50 catches only RequestException, so
the exception escapes and aborts the batch instead of being logged.
This theorem evaluates the model on every input: the TypeError always
escapes, nothing is saved, and zero requests are attempted. -/
theorem C3_code_bug (title : Json) (responses : Nat → BibResp) :
    download_bibtex title responses = ⟨some .typeError, none, 0⟩ := rfl

/-- C7 is false as stated: a hit whose authors field is itself a list
(instead of an object wrapping author) makes line 104 call .get on a
list, raising an uncaught AttributeError instead of producing a Result. -/
theorem C7_counterexample :
    normalizeHit (.obj [("info", .obj [("authors", .arr [.obj [("text", .str "A")]])])])
      = .error .attributeError := rfl

/-- C7 (amended): on every well-shaped hit record (object hit, object
info, object authors, author texts strings when the author value is a
list) the Normalizer succeeds; a single author object {text: a} yields
authors a, a two-element list yields the comma join, an absent authors
field yields the empty string, and absent title/venue/year/url fields
default to empty strings. -/
theorem C7_amended (hit : Json) (a b t v y u : String) (h : hitOk hit = true) :
    (normalizeHit hit).isOk = true
    ∧ normalizeHit (.obj [("info", .obj [("authors", .obj [("author",
        .obj [("text", .str a)])]), ("title", .str t), ("venue", .str v),
        ("year", .str y), ("url", .str u)])])
      = .ok ⟨.str t, .str a, .str v, .str y, .str u⟩
    ∧ normalizeHit (.obj [("info", .obj [("authors", .obj [("author",
        .arr [.obj [("text", .str a)], .obj [("text", .str b)]])]), ("title", .str t),
        ("venue", .str v), ("year", .str y), ("url", .str u)])])
      = .ok ⟨.str t, .str (a ++ ", " ++ b), .str v, .str y, .str u⟩
    ∧ normalizeHit (.obj [("info", .obj [("title", .str t), ("venue", .str v),
        ("year", .str y), ("url", .str u)])])
      = .ok ⟨.str t, .str "", .str v, .str y, .str u⟩
    ∧ normalizeHit (.obj []) = .ok ⟨.str "", .str "", .str "", .str "", .str ""⟩ :=
  ⟨normalizeHit_ok_of_hitOk hit h, rfl, rfl, rfl, rfl⟩

/-- Witness for the amended C7 at a concrete single-author hit. -/
theorem C7_witness :
    (normalizeHit (.obj [("info", .obj [("authors", .obj [("author",
        .obj [("text", .str "A")])]), ("title", .str "T"), ("venue", .str "V"),
        ("year", .str "Y"), ("url", .str "U")])])).isOk = true
    ∧ normalizeHit (.obj [("info", .obj [("authors", .obj [("author",
        .obj [("text", .str "A")])]), ("title", .str "T"), ("venue", .str "V"),
        ("year", .str "Y"), ("url", .str "U")])])
      = .ok ⟨.str "T", .str "A", .str "V", .str "Y", .str "U"⟩
    ∧ normalizeHit (.obj [("info", .obj [("authors", .obj [("author",
        .arr [.obj [("text", .str "A")], .obj [("text", .str "B")]])]), ("title", .str "T"),
        ("venue", .str "V"), ("year", .str "Y"), ("url", .str "U")])])
      = .ok ⟨.str "T", .str ("A" ++ ", " ++ "B"), .str "V", .str "Y", .str "U"⟩
    ∧ normalizeHit (.obj [("info", .obj [("title", .str "T"), ("venue", .str "V"),
        ("year", .str "Y"), ("url", .str "U")])])
      = .ok ⟨.str "T", .str "", .str "V", .str "Y", .str "U"⟩
    ∧ normalizeHit (.obj []) = .ok ⟨.str "", .str "", .str "", .str "", .str ""⟩ :=
  C7_amended (.obj [("info", .obj [("authors", .obj [("author",
    .obj [("text", .str "A")])]), ("title", .str "T"), ("venue", .str "V"),
    ("year", .str "Y"), ("url", .str "U")])]) "A" "B" "T" "V" "Y" "U" rfl

/-- C8 is false as stated: a keyword that is itself the wildcard venue
clause makes the built query contain that clause even though the venue is
the wildcard "all". -/
theorem C8_counterexample :
    ¬ ((venue_clause "all" ∈ query_parts "streamid:conf/all:" "all" "2024")
        ↔ pyLower "all" ≠ "all") := by
  decide

/-- C8 (amended): when the keyword does not itself collide with a filter
clause, the built query parts contain the keyword always, the venue
clause exactly when the lowercased venue is not "all", and the year
clause exactly when the lowercased year is not "all". -/
theorem C8_amended (k v y : String) (hkv : k ≠ venue_clause v) (hky : k ≠ year_clause y) :
    k ∈ query_parts k v y
    ∧ (venue_clause v ∈ query_parts k v y ↔ pyLower v ≠ "all")
    ∧ (year_clause y ∈ query_parts k v y ↔ pyLower y ≠ "all") := by
  have hvy := venue_clause_ne_year_clause v y
  refine ⟨by simp [query_parts], ?_, ?_⟩
  · constructor
    · intro hm hveq
      rw [query_parts, if_neg (show ¬(pyLower v ≠ "all") from fun hc => hc hveq),
        List.append_nil] at hm
      rcases List.mem_append.mp hm with h1 | h2
      · have he : venue_clause v = k := by simpa using h1
        exact hkv he.symm
      · by_cases hy2 : pyLower y ≠ "all"
        · rw [if_pos hy2] at h2
          have he : venue_clause v = year_clause y := by simpa using h2
          exact hvy he
        · rw [if_neg hy2] at h2
          simp at h2
    · intro hv
      rw [query_parts, if_pos hv]
      simp
  · constructor
    · intro hm hyeq
      rw [query_parts, if_neg (show ¬(pyLower y ≠ "all") from fun hc => hc hyeq),
        List.append_nil] at hm
      rcases List.mem_append.mp hm with h1 | h2
      · have he : year_clause y = k := by simpa using h1
        exact hky he.symm
      · by_cases hv2 : pyLower v ≠ "all"
        · rw [if_pos hv2] at h2
          have he : year_clause y = venue_clause v := by simpa using h2
          exact hvy he.symm
        · rw [if_neg hv2] at h2
          simp at h2
    · intro hy
      rw [query_parts, if_pos hy]
      simp

/-- Witness for the amended C8 at a concrete query, both with concrete
filters and with the wildcard. -/
theorem C8_witness :
    ("foo" ∈ query_parts "foo" "ICLR" "2024"
      ∧ (venue_clause "ICLR" ∈ query_parts "foo" "ICLR" "2024" ↔ pyLower "ICLR" ≠ "all")
      ∧ (year_clause "2024" ∈ query_parts "foo" "ICLR" "2024" ↔ pyLower "2024" ≠ "all"))
    ∧ ("foo" ∈ query_parts "foo" "all" "all"
      ∧ (venue_clause "all" ∈ query_parts "foo" "all" "all" ↔ pyLower "all" ≠ "all")
      ∧ (year_clause "all" ∈ query_parts "foo" "all" "all" ↔ pyLower "all" ≠ "all")) :=
  ⟨C8_amended "foo" "ICLR" "2024" (by decide) (by decide),
   C8_amended "foo" "all" "all" (by decide) (by decide)⟩

/-- C9 is false as stated once auxiliary downloads are enabled: the
moment a fetch returns any Result, the Auxiliary Downloader invoked for
it raises the uncaught TypeError of line 43, so the batch aborts with an
exception instead of producing the aggregation map. -/
theorem C9_counterexample :
    run (fun _ _ => Resp.httpResponse 200 none
        (some (Json.obj [("result", Json.obj [("hits", Json.obj [("@total", Json.str "1"),
          ("hit", Json.obj [("info", Json.obj [("title", Json.str "T"),
            ("year", Json.str "2024"), ("url", Json.str "u")])])])])])))
      (fun _ _ => BibResp.transportError) true ["foo"] ["2024"] ["all"]
      = .error .typeError := rfl

/-- C9 (amended): with auxiliary downloads disabled (enabled, they abort
the batch on the first fetched Result through the TypeError of line 43),
when every fetch succeeds the batch maps each keyword to the
concatenation of the fetched result lists in the documented order: years
outer, venues inner. -/
theorem C9_aggregation (oracle : String → Nat → Resp) (bibOracle : Json → Nat → BibResp)
    (keywords years venues : List String)
    (F : String → String → String → List Entry)
    (hF : ∀ k v y, (get_dblp_results k v y oracle 5).outcome = .ok (F k v y)) :
    ∃ M, run oracle bibOracle false keywords years venues = .ok M
      ∧ ∀ k ∈ keywords,
          List.lookup k M
            = some (years.flatMap (fun y => venues.flatMap (fun v => F k v y))) := by
  have hagg : ∀ k, crawl_keyword oracle bibOracle false k years venues
      = .ok (years.flatMap (fun y => venues.flatMap (fun v => F k v y))) := by
    intro k
    have hq : ∀ v y, crawl_query oracle bibOracle false k v y = .ok (F k v y) :=
      fun v y => crawl_query_eq oracle bibOracle k v y (F k v y) (hF k v y)
    have hy : ∀ y acc, crawl_venues oracle bibOracle false k y acc venues
        = .ok (acc ++ venues.flatMap (fun v => F k v y)) :=
      fun y acc => crawl_venues_eq oracle bibOracle false k y (fun v => F k v y)
        (fun v => hq v y) venues acc
    have h2 := crawl_years_eq oracle bibOracle false k venues
      (fun y => venues.flatMap (fun v => F k v y)) hy years []
    simpa [crawl_keyword] using h2
  obtain ⟨M, hM, hl⟩ :=
    run_keywords_lookup oracle bibOracle false years venues _ hagg keywords []
  refine ⟨M, hM, fun k hk => ?_⟩
  rw [hl k, if_pos hk]

/-- Witness for the amended C9: the end-to-end scenario with
keywords = [foo], venues = [all], years = [2024], downloads disabled and
an API returning exactly one hit; the aggregation binds foo to that one
normalized Result. -/
theorem C9_witness :
    ∃ M, run (fun _ _ => Resp.httpResponse 200 none
        (some (Json.obj [("result", Json.obj [("hits", Json.obj [("@total", Json.str "1"),
          ("hit", Json.obj [("info", Json.obj [("title", Json.str "T"),
            ("year", Json.str "2024"), ("url", Json.str "u")])])])])])))
      (fun _ _ => BibResp.transportError) false ["foo"] ["2024"] ["all"] = .ok M
      ∧ ∀ k ∈ ["foo"],
          List.lookup k M
            = some [⟨Json.str "T", Json.str "", Json.str "", Json.str "2024", Json.str "u"⟩] :=
  C9_aggregation (fun _ _ => Resp.httpResponse 200 none
      (some (Json.obj [("result", Json.obj [("hits", Json.obj [("@total", Json.str "1"),
        ("hit", Json.obj [("info", Json.obj [("title", Json.str "T"),
          ("year", Json.str "2024"), ("url", Json.str "u")])])])])])))
    (fun _ _ => BibResp.transportError) ["foo"] ["2024"] ["all"]
    (fun _ _ _ => [⟨Json.str "T", Json.str "", Json.str "", Json.str "2024", Json.str "u"⟩])
    (fun _ _ _ => rfl)
